import Mathlib

/- Verification of the game-to-Telegram notification relay.  The file embeds
   the link resolver, the reply session manager, the webhook command router
   and the notification dispatcher as pure functions over an explicit store
   state, and proves the stated properties about them. -/

/-- Pointwise update of a one-key string map. -/
def upd {α : Type} (f : String → α) (k : String) (v : α) : String → α :=
  fun x => if x = k then v else f x

/-- Pointwise update of a two-key string map. -/
def upd2 {α : Type} (f : String → String → α) (k1 k2 : String) (v : α) :
    String → String → α :=
  fun x y => if x = k1 ∧ y = k2 then v else f x y

/-- Consume the given leading characters, returning the remainder. -/
def eatLead : List Char → List Char → Option (List Char)
  | [], l => some l
  | _ :: _, [] => none
  | a :: p, b :: l => if a = b then eatLead p l else none

/-- Substring test on character lists. -/
def hasSub (pat : List Char) : List Char → Bool
  | [] => pat.isEmpty
  | l@(_ :: tl) => (eatLead pat l).isSome || hasSub pat tl

/-- Models the JavaScript expression text.includes(pat). -/
def includesSub (text pat : String) : Bool :=
  hasSub pat.toList text.toList

/-- Prefix test, models the JavaScript expression text.startsWith(pat). -/
def startsWithL (text pat : String) : Bool :=
  (eatLead pat.toList text.toList).isSome

/-- Splitting on a separator character, models the JavaScript split method:
    the separator is dropped and empty fields are kept. -/
def jsSplit (sep : Char) : List Char → List Char → List String
  | acc, [] => [String.mk acc.reverse]
  | acc, c :: rest =>
    if c = sep then String.mk acc.reverse :: jsSplit sep [] rest
    else jsSplit sep (c :: acc) rest

/-- JavaScript whitespace for trim: blank, tab, line and page breaks, the
    no-break space and the byte-order mark. -/
def jsIsSpace (c : Char) : Bool :=
  c = ' ' || c = '\t' || c = '\n' || c = '\r' || c = '\x0b' || c = '\x0c' ||
    c = '\u00a0' || c = '\ufeff'

/-- Models the JavaScript trim method. -/
def jsTrim (s : String) : String :=
  String.mk (((s.toList.dropWhile (jsIsSpace ·)).reverse.dropWhile (jsIsSpace ·)).reverse)

/-- Hexadecimal digit character (lowercase), as produced by JSON.stringify
    when escaping control characters. -/
def hexDig (n : Nat) : Char :=
  if n < 10 then Char.ofNat (48 + n) else Char.ofNat (87 + n)

/-- Numeric value of a hexadecimal digit character, as accepted by JSON.parse. -/
def hexVal (c : Char) : Option Nat :=
  if '0' ≤ c ∧ c ≤ '9' then some (c.toNat - 48)
  else if 'a' ≤ c ∧ c ≤ 'f' then some (c.toNat - 87)
  else if 'A' ≤ c ∧ c ≤ 'F' then some (c.toNat - 55)
  else none

/-- Escaping of one character inside a JSON string literal, following the
    JavaScript JSON.stringify quoting rules. -/
def quoteChar (c : Char) : List Char :=
  if c = '"' then ['\\', '"']
  else if c = '\\' then ['\\', '\\']
  else if c = '\x08' then ['\\', 'b']
  else if c = '\t' then ['\\', 't']
  else if c = '\n' then ['\\', 'n']
  else if c = '\x0c' then ['\\', 'f']
  else if c = '\r' then ['\\', 'r']
  else if c.toNat < 32 then ['\\', 'u', '0', '0', hexDig (c.toNat / 16), hexDig (c.toNat % 16)]
  else [c]

/-- Decoding of a single-character JSON escape, as accepted by JSON.parse. -/
def escChar (e : Char) : Option Char :=
  if e = '"' then some '"'
  else if e = '\\' then some '\\'
  else if e = '/' then some '/'
  else if e = 'b' then some '\x08'
  else if e = 't' then some '\t'
  else if e = 'n' then some '\n'
  else if e = 'f' then some '\x0c'
  else if e = 'r' then some '\r'
  else none

/-- Parser for the body of a JSON string literal, positioned after the opening
    quote: returns the decoded characters and the input following the closing
    quote.  This is the JSON.parse view of a string literal. -/
def parseStrAux : List Char → Option (List Char × List Char)
  | [] => none
  | c :: rest =>
    if c = '"' then some ([], rest)
    else if c = '\\' then
      match rest with
      | [] => none
      | e :: rest2 =>
        if e = 'u' then
          match rest2 with
          | h1 :: h2 :: h3 :: h4 :: rest3 =>
            match hexVal h1, hexVal h2, hexVal h3, hexVal h4 with
            | some a, some b, some c2, some d =>
              (parseStrAux rest3).map fun p =>
                (Char.ofNat (((a * 16 + b) * 16 + c2) * 16 + d) :: p.1, p.2)
            | _, _, _, _ => none
          | _ => none
        else
          match escChar e with
          | some ec => (parseStrAux rest2).map fun p => (ec :: p.1, p.2)
          | none => none
    else (parseStrAux rest).map fun p => (c :: p.1, p.2)

/-- A queue entry as seen by the external game-server consumer: dest models
    the JSON key named to (an optional recipient), content the message text. -/
structure QueueEntry where
  dest : Option String
  content : String
  deriving DecidableEq

/-- A JSON string literal with both quotes, per JSON.stringify. -/
def quoteJsonL (s : List Char) : List Char :=
  '"' :: (s.flatMap quoteChar ++ ['"'])

/-- Leading characters of the serialized two-field payload, opening the value
    of the first key. -/
def headTo : List Char := ['\x7b', '"', 't', 'o', '"', ':', '"']

/-- Characters between the two string values of the two-field payload. -/
def sepContent : List Char := [',', '"', 'c', 'o', 'n', 't', 'e', 'n', 't', '"', ':', '"']

/-- Leading characters of the serialized content-only payload. -/
def headContent : List Char := ['\x7b', '"', 'c', 'o', 'n', 't', 'e', 'n', 't', '"', ':', '"']

/-- Models JSON.stringify on the two-field reply payload with keys to and
    content, in source order. -/
def stringifyToContent (t c : String) : String :=
  String.mk (headTo ++ (t.toList.flatMap quoteChar ++ ('"' :: (sepContent ++
    (c.toList.flatMap quoteChar ++ ('"' :: ['\x7d']))))))

/-- Models JSON.stringify on the content-only guild payload. -/
def stringifyContentOnly (c : String) : String :=
  String.mk (headContent ++ (c.toList.flatMap quoteChar ++ ('"' :: ['\x7d'])))

/-- JSON serialization of a queue entry, exactly as pushed by the code. -/
def stringifyEntry : QueueEntry → String
  | ⟨some t, c⟩ => stringifyToContent t c
  | ⟨none, c⟩ => stringifyContentOnly c

/-- External-consumer parser for a queue entry: accepts exactly the JSON
    object shapes with keys to and content, or content alone. -/
def parseEntry (s : String) : Option QueueEntry :=
  match eatLead headTo s.toList with
  | some r1 =>
    match parseStrAux r1 with
    | some (tv, r2) =>
      match eatLead sepContent r2 with
      | some r3 =>
        match parseStrAux r3 with
        | some (cv, r4) =>
          if r4 = ['\x7d'] then some ⟨some (String.mk tv), String.mk cv⟩ else none
        | none => none
      | none => none
    | none => none
  | none =>
    match eatLead headContent s.toList with
    | some r1 =>
      match parseStrAux r1 with
      | some (cv, r2) =>
        if r2 = ['\x7d'] then some ⟨none, String.mk cv⟩ else none
      | none => none
    | none => none

theorem mk_toList (l : List Char) : (String.mk l).toList = l := rfl

theorem mk_of_toList (s : String) : String.mk s.toList = s := rfl

theorem eatLead_append (p r : List Char) : eatLead p (p ++ r) = some r := by
  induction p with
  | nil => rfl
  | cons a p ih => simp [eatLead, ih]

theorem eatLead_headTo_headContent (X : List Char) :
    eatLead headTo (headContent ++ X) = none := by
  simp [headTo, headContent, eatLead]

theorem hexVal_hexDig : ∀ n < 16, hexVal (hexDig n) = some n := by decide

theorem hexVal_zero : hexVal '0' = some 0 := by decide

theorem charOfNat_toNat_small (c : Char) (h : c.toNat < 55296) :
    Char.ofNat c.toNat = c := by
  have hv : c.toNat.isValidChar := Or.inl h
  have h1 : Char.ofNat c.toNat = Char.ofNatAux c.toNat hv := dif_pos hv
  rw [h1]
  exact Char.eq_of_val_eq (UInt32.ext rfl)

theorem parseStrAux_quote (cs r : List Char) :
    parseStrAux (cs.flatMap quoteChar ++ ('"' :: r)) = some (cs, r) := by
  induction cs with
  | nil =>
    rw [List.flatMap_nil, List.nil_append, parseStrAux.eq_def]
    simp
  | cons c cs ih =>
    rw [List.flatMap_cons, List.append_assoc]
    by_cases h1 : c = '"'
    · subst h1; rw [show quoteChar '"' = ['\\', '"'] from rfl]
      rw [List.cons_append, List.cons_append, parseStrAux.eq_def]
      simp [escChar, ih]
    by_cases h2 : c = '\\'
    · subst h2; rw [show quoteChar '\\' = ['\\', '\\'] from rfl]
      rw [List.cons_append, List.cons_append, parseStrAux.eq_def]
      simp [escChar, ih]
    by_cases h3 : c = '\x08'
    · subst h3; rw [show quoteChar '\x08' = ['\\', 'b'] from rfl]
      rw [List.cons_append, List.cons_append, parseStrAux.eq_def]
      simp [escChar, ih]
    by_cases h4 : c = '\t'
    · subst h4; rw [show quoteChar '\t' = ['\\', 't'] from rfl]
      rw [List.cons_append, List.cons_append, parseStrAux.eq_def]
      simp [escChar, ih]
    by_cases h5 : c = '\n'
    · subst h5; rw [show quoteChar '\n' = ['\\', 'n'] from rfl]
      rw [List.cons_append, List.cons_append, parseStrAux.eq_def]
      simp [escChar, ih]
    by_cases h6 : c = '\x0c'
    · subst h6; rw [show quoteChar '\x0c' = ['\\', 'f'] from rfl]
      rw [List.cons_append, List.cons_append, parseStrAux.eq_def]
      simp [escChar, ih]
    by_cases h7 : c = '\r'
    · subst h7; rw [show quoteChar '\r' = ['\\', 'r'] from rfl]
      rw [List.cons_append, List.cons_append, parseStrAux.eq_def]
      simp [escChar, ih]
    by_cases h8 : c.toNat < 32
    · have e1 := hexVal_hexDig _ (show c.toNat / 16 < 16 by omega)
      have e2 := hexVal_hexDig _ (show c.toNat % 16 < 16 from Nat.mod_lt _ (by omega))
      have hc : Char.ofNat (c.toNat / 16 * 16 + c.toNat % 16) = c := by
        have harith : c.toNat / 16 * 16 + c.toNat % 16 = c.toNat := by omega
        rw [harith]; exact charOfNat_toNat_small c (by omega)
      rw [show quoteChar c = ['\\', 'u', '0', '0', hexDig (c.toNat / 16), hexDig (c.toNat % 16)]
        by simp [quoteChar, h1, h2, h3, h4, h5, h6, h7, h8]]
      rw [List.cons_append, List.cons_append, List.cons_append, List.cons_append,
        List.cons_append, List.cons_append, parseStrAux.eq_def]
      simp [hexVal_zero, e1, e2, hc, ih]
    · rw [show quoteChar c = [c] by simp [quoteChar, h1, h2, h3, h4, h5, h6, h7, h8]]
      rw [List.cons_append, List.nil_append, parseStrAux.eq_def]
      simp [h1, h2, ih]

theorem parseEntry_stringify (p : QueueEntry) : parseEntry (stringifyEntry p) = some p := by
  obtain ⟨d, cnt⟩ := p
  cases d with
  | some t =>
    show parseEntry (stringifyToContent t cnt) = _
    unfold parseEntry stringifyToContent
    simp only [mk_toList, eatLead_append, parseStrAux_quote, mk_of_toList, if_true]
  | none =>
    show parseEntry (stringifyContentOnly cnt) = _
    unfold parseEntry stringifyContentOnly
    simp only [mk_toList, eatLead_headTo_headContent, eatLead_append, parseStrAux_quote,
      mk_of_toList, if_true]

/-- A reply permit as stored under reply_permit:<chatId>:<contextId>.  The
    stored value is the JSON object with fields target and type; it is
    modelled structurally because JSON.parse of JSON.stringify is the
    identity on this flat record. -/
structure Permit where
  target : String
  type : String
  deriving DecidableEq

/-- An active reply session as stored under active_reply:<chatId>, the JSON
    object with fields target, type and originalMsgId, modelled
    structurally. -/
structure Session where
  target : String
  type : String
  originalMsgId : Nat
  deriving DecidableEq

/-- The value stored under telegram_token:<linkId>, modelled after the
    interpretation performed by linkAccount: obj when JSON.parse of the
    stored string succeeds and yields an object with userId and optional
    serverId fields, raw when JSON.parse throws and the raw string is used
    as the userId.  An empty stored string, which the code treats the same
    as an absent key (falsy check), is modelled as an absent key. -/
inductive TokenVal where
  | obj (userId : String) (serverId : Option String)
  | raw (s : String)
  deriving DecidableEq

/-- The userId the code extracts from a token value. -/
def tokenUserId : TokenVal → String
  | .obj u _ => u
  | .raw s => s

/-- The serverId the code extracts from a token value. -/
def tokenServerId : TokenVal → Option String
  | .obj _ s => s
  | .raw _ => none

/-- Outbound chat-platform calls; reply keyboards and prompt options are
    cosmetic and not modelled. -/
inductive Out where
  | answerCallbackQuery (queryId : String)
  | sendMessage (chatId text : String)
  | editMessageReplyMarkup (chatId : String) (msgId : Nat)
  deriving DecidableEq

/-- The shared key-value store.  Each field is one key family of the Redis
    instance; the families have distinct key shapes, so they can never
    collide.  TTL fields record the expiry seconds passed with the last
    write, expiry itself being delegated to the store. -/
structure Store where
  chat : String → Option String
  user : String → Option String
  token : String → Option TokenVal
  metaServer : String → Option String
  lastPm : String → Option String
  lastPmTtl : String → Option Nat
  lastGuild : String → Option String
  lastGuildTtl : String → Option Nat
  permit : String → String → Option Permit
  permitTtl : String → String → Option Nat
  active : String → Option Session
  activeTtl : String → Option Nat
  pending : String → List String
  pendingTtl : String → Option Nat

/-- The store with no keys. -/
def Store.empty : Store where
  chat := fun _ => none
  user := fun _ => none
  token := fun _ => none
  metaServer := fun _ => none
  lastPm := fun _ => none
  lastPmTtl := fun _ => none
  lastGuild := fun _ => none
  lastGuildTtl := fun _ => none
  permit := fun _ _ => none
  permitTtl := fun _ _ => none
  active := fun _ => none
  activeTtl := fun _ => none
  pending := fun _ => []
  pendingTtl := fun _ => none

/-- JavaScript truthiness of a fetched string value: absent and empty are
    both falsy. -/
def jsTruthyStr : Option String → Option String
  | some s => if s = "" then none else some s
  | none => none

/-- JavaScript string fallback, modelling the pattern value or default. -/
def jsOrStr (o : Option String) (dflt : String) : String :=
  match jsTruthyStr o with
  | some s => s
  | none => dflt

/-- Text of the invalid-token chat message. -/
def UI.invalidToken : String :=
  "❌ **Invalid or Expired Token.**\nPlease generate a new one in-game."

/-- Text of the not-linked chat message. -/
def UI.notLinked : String :=
  "\n⚠️ **Account Not Linked**\n\nPlease go to the game settings, click **\"Connect Telegram\"**, and use the token provided.\n"

/-- Text of the no-reply-context chat message. -/
def UI.noReplyContext : String :=
  "\n⚠️ **No active conversation.**\n\nYou can only use /reply or /guild within **5 minutes** of receiving a message.\nWait for a new message to reply.\n"

/-- Text of the reply-window-expired chat message. -/
def UI.replyExpired : String :=
  "\n⚠️ **Reply Window Expired**\n\nYou had 5 minutes to reply. Please wait for a new message.\n"

/-- Text of the help chat message. -/
def UI.help : String :=
  "\n📚 **Bot Commands Help**\n\n/start - Main Menu\n/link <token> - Connect Account\n/disconnect - Disconnect Account\n/status - Connection Status\n/reply <Msg> - Reply to last PM (5m limit)\n/guild <Msg> - Reply to last Guild Msg (5m limit)\n"

/-- Text of the welcome chat message. -/
def UI.welcome (name : String) : String :=
  "\n👋 **Hello, " ++ name ++ "!**\n\nI am your personal **Game Assistant**. 🛡️\nI can send you real-time notifications about:\n• ⚔️ Battles\n• 📩 Private Messages\n• 📜 Guild Events\n\n👇 **Connect your account to get started!**\n"

/-- Text of the link-success chat message. -/
def UI.linked (userId : String) (serverId : Option String) : String :=
  "\n🎉 **Connection Successful!**\n\n👤 **User ID:** `" ++ userId ++ "`\n🌍 **Server:** " ++ jsOrStr serverId "Unknown" ++ "\n\nYou will now receive notifications here. 🚀\n"

/-- Text of the status chat message. -/
def UI.status (userId : String) : String :=
  "\n📡 **System Status: ONLINE**\n\n✅ **Connected**\n👤 **User ID:** `" ++ userId ++ "`\n\nAll systems operational.\n"

/-- Models Helpers.getUserId: redis.get of telegram_chat:<chatId>. -/
def Helpers.getUserId (st : Store) (chatId : String) : Option String :=
  st.chat chatId

/-- Models Helpers.queueReply: rpush of the JSON payload onto
    telegram_pending:<userId> followed by expire with MESSAGE_TTL = 86400. -/
def Helpers.queueReply (st : Store) (userId : String) (payload : QueueEntry) : Store :=
  { st with
    pending := upd st.pending userId (st.pending userId ++ [stringifyEntry payload]),
    pendingTtl := upd st.pendingTtl userId (some 86400) }

/-- Models Actions.linkAccount from the webhook handler: looks up
    telegram_token:<linkId>; when absent answers with the invalid-token
    message and changes nothing; otherwise writes both link directions,
    optionally the server metadata, deletes the token and answers with the
    link-success message. -/
def Actions.linkAccount (st : Store) (chatId linkId : String) : Store × List Out :=
  match st.token linkId with
  | none => (st, [.sendMessage chatId UI.invalidToken])
  | some tv =>
    let userId := tokenUserId tv
    let st2 : Store := { st with
      chat := upd st.chat chatId (some userId),
      user := upd st.user userId (some chatId),
      metaServer :=
        if (tokenServerId tv).getD "" = "" then st.metaServer
        else upd st.metaServer userId (tokenServerId tv),
      token := upd st.token linkId none }
    (st2, [.sendMessage chatId (UI.linked userId (tokenServerId tv))])

/-- Models Actions.disconnectAccount: deletes both link directions when the
    chat is linked, otherwise only answers that the chat is not connected. -/
def Actions.disconnectAccount (st : Store) (chatId : String) : Store × List Out :=
  match jsTruthyStr (Helpers.getUserId st chatId) with
  | some userId =>
    ({ st with
       chat := upd st.chat chatId none,
       user := upd st.user userId none },
     [.sendMessage chatId "🔌 **Disconnected Successfully.**"])
  | none => (st, [.sendMessage chatId "⚠️ You are not connected."])

/-- Models Actions.sendReply: queues a payload with keys to and content for
    the linked account, or answers with the not-linked message when the chat
    has no link. -/
def Actions.sendReply (st : Store) (chatId target content : String) : Store × List Out :=
  match jsTruthyStr (Helpers.getUserId st chatId) with
  | none => (st, [.sendMessage chatId UI.notLinked])
  | some userId =>
    (Helpers.queueReply st userId ⟨some target, content⟩,
     [.sendMessage chatId
       ("📤 **Message Sent**\nTo: `" ++ target ++ "`\n\"" ++ content ++ "\"")])

/-- Models Actions.sendGuildMessage: queues a content-only payload for the
    linked account, or answers with the not-linked message. -/
def Actions.sendGuildMessage (st : Store) (chatId content : String) : Store × List Out :=
  match jsTruthyStr (Helpers.getUserId st chatId) with
  | none => (st, [.sendMessage chatId UI.notLinked])
  | some userId =>
    (Helpers.queueReply st userId ⟨none, content⟩,
     [.sendMessage chatId ("🛡️ **Guild Message Sent**\n\"" ++ content ++ "\"")])

/-- Leftmost match of the literal pattern followed by a one-or-more capture
    of non-newline characters running to the end of the line, as the command
    regexes do; a position where the pattern matches but the capture would
    be empty is skipped, as regex backtracking does. -/
def searchCapture (pat : List Char) : List Char → Option String
  | [] => none
  | l@(_ :: tl) =>
    match eatLead pat l with
    | some rest =>
      let cap := rest.takeWhile (fun c => c ≠ '\n')
      if cap.isEmpty then searchCapture pat tl else some (String.mk cap)
    | none => searchCapture pat tl

/-- Models text.match of a literal pattern followed by a capture group, for
    example the slash-command argument regexes and the simple From regex. -/
def matchCmdArg (pat text : String) : Option String :=
  searchCapture pat.toList text.toList

/-- Models the linkId extraction of the /start branch: the regex match of
    /start with an optional space-plus-capture group, evaluated at position
    zero because the branch has checked the /start prefix, followed by the
    trim the code applies.  Returns none when the optional group does not
    participate; a captured run of blanks trims to the empty string, which
    the caller treats as falsy. -/
def startArg (text : String) : Option String :=
  if startsWithL text "/start " then
    let cap := (text.toList.drop 7).takeWhile (fun c => c ≠ '\n')
    if cap.isEmpty then none else some (jsTrim (String.mk cap))
  else none

/-- Shortest nonempty run of non-newline characters followed by the literal
    terminator, per the lazy capture group of the classification regexes. -/
def lazyCapAux (term : List Char) : List Char → List Char → Option String
  | _, [] => none
  | acc, c :: rest =>
    if c = '\n' then none
    else
      match eatLead term rest with
      | some _ => some (String.mk (acc ++ [c]))
      | none => lazyCapAux term (acc ++ [c]) rest

/-- Leftmost position where the literal lead matches and is followed by a
    lazy nonempty non-newline capture and the literal terminator. -/
def searchLazy (pre term : List Char) : List Char → Option String
  | [] => none
  | l@(_ :: tl) =>
    match eatLead pre l with
    | some rest =>
      match lazyCapAux term [] rest with
      | some cap => some cap
      | none => searchLazy pre term tl
    | none => searchLazy pre term tl

/-- Models the private-message classification regex of the notification
    handler; the regex source doubles the backslash, so the pattern matches
    a literal backslash-n character pair before From and after the captured
    sender. -/
def pmMatch (text : String) : Option String :=
  searchLazy ("New Private Message**\\nFrom: ".toList) ("\\n".toList) text.toList

/-- Models the guild-message classification regex, same shape as the
    private-message one. -/
def guildMatch (text : String) : Option String :=
  searchLazy ("New Guild Message**\\nFrom: ".toList) ("\\n".toList) text.toList

/-- Models the fallback sender regex From with a capture terminated by a
    real newline or the end of the text. -/
def simpleFromMatch (text : String) : Option String :=
  matchCmdArg "From: " text

/-- An inbound Telegram update, reduced to the fields the handler reads. -/
inductive Update where
  | callback (queryId chatId : String) (msgId : Nat) (data : String)
  | message (chatId text firstName : String)
  | other

/-- The context id encoded in a reply button payload: element one of the
    colon-split of the callback data. -/
def ctxOf (action : String) : String :=
  (jsSplit ':' [] action.toList).getD 1 ""

/-- Models the callback_query branch of the webhook handler: the callback is
    acknowledged first; a reply_context payload activates a session from the
    permit of the encoded context id, and the remaining payloads map to
    help, status and disconnect, anything else being a no-op. -/
def handleCallback (st : Store) (queryId chatId : String) (msgId : Nat) (action : String) :
    Store × List Out :=
  let ack := Out.answerCallbackQuery queryId
  if startsWithL action "reply_context:" then
    match st.permit chatId (ctxOf action) with
    | none => (st, [ack, .sendMessage chatId UI.replyExpired])
    | some p =>
      ({ st with
         active := upd st.active chatId (some ⟨p.target, p.type, msgId⟩),
         activeTtl := upd st.activeTtl chatId (some 300) },
       [ack, .sendMessage chatId
         ("📝 **Replying to " ++ p.target ++ "...**\n\nPlease type your message now.")])
  else if action = "help" then (st, [ack, .sendMessage chatId UI.help])
  else if action = "status" then
    match jsTruthyStr (Helpers.getUserId st chatId) with
    | some userId => (st, [ack, .sendMessage chatId (UI.status userId)])
    | none => (st, [ack, .sendMessage chatId UI.notLinked])
  else if action = "disconnect" then
    let r := Actions.disconnectAccount st chatId
    (r.1, ack :: r.2)
  else (st, [ack])

/-- Models the message branch of the webhook handler: slash commands first,
    otherwise the free-text path driven by the active reply session, which
    routes the text, marks the anchor message as replied and deletes the
    session together with the permit keyed by the anchor message id. -/
def handleMessage (st : Store) (chatId text firstName : String) : Store × List Out :=
  if startsWithL text "/" then
    if startsWithL text "/start" then
      match jsTruthyStr (Helpers.getUserId st chatId) with
      | some existingUserId => (st, [.sendMessage chatId (UI.status existingUserId)])
      | none =>
        match startArg text with
        | some linkId =>
          if linkId = "" then (st, [.sendMessage chatId (UI.welcome firstName)])
          else Actions.linkAccount st chatId linkId
        | none => (st, [.sendMessage chatId (UI.welcome firstName)])
    else if startsWithL text "/link" then
      match matchCmdArg "/link " text with
      | some arg => Actions.linkAccount st chatId (jsTrim arg)
      | none => (st, [])
    else if startsWithL text "/disconnect" then Actions.disconnectAccount st chatId
    else if startsWithL text "/status" then
      match jsTruthyStr (Helpers.getUserId st chatId) with
      | some userId => (st, [.sendMessage chatId (UI.status userId)])
      | none => (st, [.sendMessage chatId UI.notLinked])
    else if startsWithL text "/reply" then
      match matchCmdArg "/reply " text with
      | some arg =>
        match jsTruthyStr (st.lastPm chatId) with
        | some lastSender => Actions.sendReply st chatId lastSender (jsTrim arg)
        | none => (st, [.sendMessage chatId UI.noReplyContext])
      | none => (st, [])
    else if startsWithL text "/guild" then
      match matchCmdArg "/guild " text with
      | some arg =>
        match jsTruthyStr (st.lastGuild chatId) with
        | some _ => Actions.sendGuildMessage st chatId (jsTrim arg)
        | none => (st, [.sendMessage chatId UI.noReplyContext])
      | none => (st, [])
    else (st, [])
  else
    match st.active chatId with
    | some activeReply =>
      let r :=
        if activeReply.type = "PM" then Actions.sendReply st chatId activeReply.target text
        else if activeReply.type = "GUILD" then Actions.sendGuildMessage st chatId text
        else (st, [])
      ({ r.1 with
         active := upd r.1.active chatId none,
         activeTtl := upd r.1.activeTtl chatId none,
         permit := upd2 r.1.permit chatId (toString activeReply.originalMsgId) none,
         permitTtl := upd2 r.1.permitTtl chatId (toString activeReply.originalMsgId) none },
       r.2 ++ [.editMessageReplyMarkup chatId activeReply.originalMsgId])
    | none => (st, [])

/-- Models the webhook handler entry point dispatching one inbound update. -/
def handleUpdate (st : Store) : Update → Store × List Out
  | .callback queryId chatId msgId data => handleCallback st queryId chatId msgId data
  | .message chatId text firstName => handleMessage st chatId text firstName
  | .other => (st, [])

/-- A notification request body from the game server. -/
structure NotifyReq where
  userId : Option String
  text : Option String
  chatId : Option String

/-- The HTTP response of a notification handler: 400 for missing fields,
    404 for an unresolved destination, the JSON success body, or 500 on a
    delivery failure. -/
inductive NotifyResp where
  | badRequest
  | notLinked
  | ok
  | serverError
  deriving DecidableEq

/-- Destination resolution of the stateful notification handler: the
    explicit chatId of the payload takes precedence over the telegram_user
    lookup keyed by the account id, with JavaScript truthiness on both. -/
def resolveChat (st : Store) (payloadChatId : Option String) (userId : String) :
    Option String :=
  match jsTruthyStr payloadChatId with
  | some c => some c
  | none => jsTruthyStr (st.user userId)

/-- Models the stateful notification handler of the unnamed module: field
    checks, destination resolution, classification of the text with permit
    and last-sender writes, then the delivery call, whose success is passed
    as a parameter; the fresh context id generated from the clock is also a
    parameter. -/
def notifyHandler (st : Store) (req : NotifyReq) (contextId : String) (deliveryOk : Bool) :
    Store × NotifyResp × List Out :=
  match jsTruthyStr req.userId, jsTruthyStr req.text with
  | some userId, some text =>
    match resolveChat st req.chatId userId with
    | some chatId =>
      let formattedText :=
        if includesSub text "**" then text
        else "🔔 **Notification**\n\n" ++ text
      let st2 : Store :=
        if includesSub text "Private Message"
            ∧ (pmMatch text ≠ none ∨ simpleFromMatch text ≠ none) then
          let sender :=
            match pmMatch text with
            | some s => s
            | none => (simpleFromMatch text).getD ""
          { st with
            lastPm := upd st.lastPm chatId (some sender),
            lastPmTtl := upd st.lastPmTtl chatId (some 300),
            permit := upd2 st.permit chatId contextId (some ⟨sender, "PM"⟩),
            permitTtl := upd2 st.permitTtl chatId contextId (some 300) }
        else if includesSub text "Guild Message" then
          let sender :=
            match guildMatch text with
            | some s => s
            | none =>
              match simpleFromMatch text with
              | some s => s
              | none => "Guild"
          { st with
            lastGuild := upd st.lastGuild chatId (some sender),
            lastGuildTtl := upd st.lastGuildTtl chatId (some 300),
            permit := upd2 st.permit chatId contextId (some ⟨sender, "GUILD"⟩),
            permitTtl := upd2 st.permitTtl chatId contextId (some 300) }
        else st
      (st2, (if deliveryOk then .ok else .serverError), [.sendMessage chatId formattedText])
    | none => (st, .notLinked, [])
  | _, _ => (st, .badRequest, [])

/-- Models the stateless notification proxy of notify.js: requires chatId
    and text in the payload, formats, optionally derives a reply button from
    the text, and forwards; it never touches the store. -/
def notifyStateless (req : NotifyReq) (deliveryOk : Bool) : NotifyResp × List Out :=
  match jsTruthyStr req.chatId, jsTruthyStr req.text with
  | some chatId, some text =>
    let formattedText :=
      if includesSub text "**" then text else "🔔 **Notification**\n\n" ++ text
    ((if deliveryOk then .ok else .serverError), [.sendMessage chatId formattedText])
  | _, _ => (.badRequest, [])

/-- Models the /guild command body of the polling bot, given the argument
    captured by the command regex: pushes a payload with the to key set to
    Guild onto the pending list and refreshes its 24-hour expiry. -/
def TelegramBot.guildCommand (st : Store) (chatId arg : String) : Store × List Out :=
  match jsTruthyStr (st.chat chatId) with
  | none => (st, [.sendMessage chatId UI.notLinked])
  | some userId =>
    let content := jsTrim arg
    ({ st with
       pending := upd st.pending userId
         (st.pending userId ++ [stringifyEntry ⟨some "Guild", content⟩]),
       pendingTtl := upd st.pendingTtl userId (some 86400) },
     [.sendMessage chatId ("🛡️ **Guild Message Sent**\n\"" ++ content ++ "\"")])

/-- One link-maintenance operation of the link resolver. -/
inductive LinkOp where
  | link (chatId linkId : String)
  | disconnect (chatId : String)

/-- Store effect of one link-maintenance operation. -/
def applyOp (st : Store) : LinkOp → Store
  | .link c lid => (Actions.linkAccount st c lid).1
  | .disconnect c => (Actions.disconnectAccount st c).1

/-- Store effect of a sequence of link-maintenance operations. -/
def applyOps (st : Store) : List LinkOp → Store
  | [] => st
  | op :: ops => applyOps (applyOp st op) ops

/-- Mutual consistency of the two link directions: both directions exist and
    point at each other, or neither does. -/
def linkedConsistent (st : Store) : Prop :=
  ∀ c u, st.chat c = some u ↔ st.user u = some c

/-- A link operation is fresh when its token, if present, targets a chat
    with no current link and an account with no current link. -/
def freshOp (st : Store) : LinkOp → Prop
  | .link c lid =>
    ∀ tv, st.token lid = some tv → st.chat c = none ∧ st.user (tokenUserId tv) = none
  | .disconnect _ => True

/-- Every operation of the sequence is fresh in the state it is applied
    to. -/
def opsFresh (st : Store) : List LinkOp → Prop
  | [] => True
  | op :: ops => freshOp st op ∧ opsFresh (applyOp st op) ops

theorem jsTruthyStr_eq_some {o : Option String} {u : String}
    (h : jsTruthyStr o = some u) : o = some u := by
  cases o with
  | none => simp [jsTruthyStr] at h
  | some s =>
    simp only [jsTruthyStr] at h
    by_cases hs : s = ""
    · simp [hs] at h
    · simp [hs] at h; simp [h]

/-- C5: an inbound non-command free-text message for a chat with no active
    reply session produces no outbound queue entry and no chat reply, and
    leaves the store state unchanged. -/
theorem c5_free_text_without_session_noop (st : Store) (chatId text firstName : String)
    (hcmd : startsWithL text "/" = false) (hact : st.active chatId = none) :
    handleUpdate st (.message chatId text firstName) = (st, []) := by
  simp [handleUpdate, handleMessage, hcmd, hact]

theorem c5_witness :
    startsWithL "hello" "/" = false ∧ Store.empty.active "7" = none ∧
    handleUpdate Store.empty (.message "7" "hello" "Al") = (Store.empty, []) :=
  ⟨by decide, rfl,
    c5_free_text_without_session_noop Store.empty "7" "hello" "Al" (by decide) rfl⟩

/-- C7: pressing a reply button whose permit is absent or expired sends
    exactly the reply-window-expired message after the callback
    acknowledgement, creates no active reply session and performs no store
    write at all, the store being returned unchanged. -/
theorem c7_expired_permit_only_message (st : Store) (queryId chatId data : String)
    (msgId : Nat) (hpre : startsWithL data "reply_context:" = true)
    (hperm : st.permit chatId (ctxOf data) = none) :
    handleUpdate st (.callback queryId chatId msgId data)
      = (st, [.answerCallbackQuery queryId, .sendMessage chatId UI.replyExpired]) := by
  simp [handleUpdate, handleCallback, hpre, hperm]

theorem c7_witness :
    startsWithL "reply_context:99" "reply_context:" = true ∧
    Store.empty.permit "7" (ctxOf "reply_context:99") = none ∧
    handleUpdate Store.empty (.callback "q1" "7" 5 "reply_context:99")
      = (Store.empty, [.answerCallbackQuery "q1", .sendMessage "7" UI.replyExpired]) :=
  ⟨by decide, by decide,
    c7_expired_permit_only_message Store.empty "q1" "7" "reply_context:99" 5 (by decide)
      (by decide)⟩

/-- C6: a successful activation unconditionally replaces whatever active
    reply session the chat had by the new session carrying the permit target
    and kind and the pressed message id as anchor, with a fresh 300-second
    expiry; the store keys sessions by chat, so at most one session per chat
    exists and the old one is discarded without merging. -/
theorem c6_activation_overwrites_session (st : Store) (queryId chatId data : String)
    (msgId : Nat) (p : Permit) (hpre : startsWithL data "reply_context:" = true)
    (hperm : st.permit chatId (ctxOf data) = some p) :
    (handleUpdate st (.callback queryId chatId msgId data)).1.active chatId
        = some ⟨p.target, p.type, msgId⟩ ∧
    (handleUpdate st (.callback queryId chatId msgId data)).1.activeTtl chatId = some 300 := by
  constructor <;> simp [handleUpdate, handleCallback, hpre, hperm, upd]

def c6st : Store :=
  { Store.empty with permit := upd2 Store.empty.permit "7" "99" (some ⟨"Bob", "PM"⟩) }

theorem c6_witness :
    startsWithL "reply_context:99" "reply_context:" = true ∧
    c6st.permit "7" (ctxOf "reply_context:99") = some ⟨"Bob", "PM"⟩ ∧
    ((handleUpdate c6st (.callback "q1" "7" 5 "reply_context:99")).1.active "7"
        = some ⟨"Bob", "PM", 5⟩ ∧
      (handleUpdate c6st (.callback "q1" "7" 5 "reply_context:99")).1.activeTtl "7"
        = some 300) :=
  ⟨by decide, by decide,
    c6_activation_overwrites_session c6st "q1" "7" "reply_context:99" 5 ⟨"Bob", "PM"⟩
      (by decide) (by decide)⟩

/-- C2: resolving an absent or already-consumed token answers with the
    invalid-or-expired-token message and changes nothing; a successful
    resolution deletes the token, so resolving the same token a second time
    fails the same way and leaves the links written by the first resolution
    untouched. -/
theorem c2_token_single_use (st : Store) (cA cB lid : String) :
    (st.token lid = none →
      Actions.linkAccount st cA lid = (st, [.sendMessage cA UI.invalidToken])) ∧
    (∀ tv, st.token lid = some tv →
      (Actions.linkAccount st cA lid).1.token lid = none ∧
      Actions.linkAccount (Actions.linkAccount st cA lid).1 cB lid
        = ((Actions.linkAccount st cA lid).1, [.sendMessage cB UI.invalidToken])) := by
  constructor
  · intro h; simp [Actions.linkAccount, h]
  · intro tv h
    have h1 : (Actions.linkAccount st cA lid).1.token lid = none := by
      simp [Actions.linkAccount, h, upd]
    refine ⟨h1, ?_⟩
    conv_lhs => rw [Actions.linkAccount.eq_def]
    rw [h1]

def c2st : Store :=
  { Store.empty with token := upd Store.empty.token "t1" (some (.obj "p42" (some "eu1"))) }

theorem c2_token_single_use_witness :
    c2st.token "t1" = some (.obj "p42" (some "eu1")) ∧
    ((Actions.linkAccount c2st "7" "t1").1.token "t1" = none ∧
      Actions.linkAccount (Actions.linkAccount c2st "7" "t1").1 "8" "t1"
        = ((Actions.linkAccount c2st "7" "t1").1, [.sendMessage "8" UI.invalidToken])) :=
  ⟨by decide,
    (c2_token_single_use c2st "7" "8" "t1").2 (.obj "p42" (some "eu1")) (by decide)⟩

/-- C4: with a linked chat and an active reply session of kind PM targeting
    S, an inbound free text M queues exactly one entry with recipient S and
    content M onto the pending list of the linked account and then deletes
    the active reply session, so a subsequent free text finds no session and
    is ignored. -/
theorem c4_pm_reply_routes_and_consumes (st : Store)
    (chatId uid S M text2 fn fn2 : String) (mid : Nat)
    (hlink : st.chat chatId = some uid) (huid : uid ≠ "")
    (hsess : st.active chatId = some ⟨S, "PM", mid⟩)
    (hM : startsWithL M "/" = false) (h2 : startsWithL text2 "/" = false) :
    ((handleUpdate st (.message chatId M fn)).1.pending uid
        = st.pending uid ++ [stringifyEntry ⟨some S, M⟩]) ∧
    (handleUpdate st (.message chatId M fn)).1.active chatId = none ∧
    handleUpdate (handleUpdate st (.message chatId M fn)).1 (.message chatId text2 fn2)
      = ((handleUpdate st (.message chatId M fn)).1, []) := by
  have hj : jsTruthyStr (Helpers.getUserId st chatId) = some uid := by
    simp [jsTruthyStr, Helpers.getUserId, hlink, huid]
  refine ⟨?_, ?_, ?_⟩
  · simp [handleUpdate, handleMessage, hM, hsess, Actions.sendReply, hj,
      Helpers.queueReply, upd]
  · simp [handleUpdate, handleMessage, hM, hsess, Actions.sendReply, hj,
      Helpers.queueReply, upd]
  · set st1 := (handleUpdate st (.message chatId M fn)).1 with hst1
    have hact2 : st1.active chatId = none := by
      rw [hst1]
      simp [handleUpdate, handleMessage, hM, hsess, Actions.sendReply, hj,
        Helpers.queueReply, upd]
    simp [handleUpdate, handleMessage, h2, hact2]

def c4st : Store := { Store.empty with
  chat := upd Store.empty.chat "7" (some "p42"),
  active := upd Store.empty.active "7" (some ⟨"Bob", "PM", 42⟩) }

theorem c4_witness :
    c4st.chat "7" = some "p42" ∧ c4st.active "7" = some ⟨"Bob", "PM", 42⟩ ∧
    (((handleUpdate c4st (.message "7" "hello back" "Al")).1.pending "p42"
        = c4st.pending "p42" ++ [stringifyEntry ⟨some "Bob", "hello back"⟩]) ∧
      (handleUpdate c4st (.message "7" "hello back" "Al")).1.active "7" = none ∧
      handleUpdate (handleUpdate c4st (.message "7" "hello back" "Al")).1
          (.message "7" "again" "Al")
        = ((handleUpdate c4st (.message "7" "hello back" "Al")).1, [])) :=
  ⟨by decide, by decide,
    c4_pm_reply_routes_and_consumes c4st "7" "p42" "Bob" "hello back" "again" "Al" "Al" 42
      (by decide) (by decide) (by decide) (by decide) (by decide)⟩

/-- C10: free text for a chat that has an active reply session but no
    chat-to-account link answers with the not-linked message, pushes no
    queue entry onto any pending list, and still deletes the active session
    together with the permit key derived from the anchor message id, so the
    session is consumed without the reply being queued. -/
theorem c10_unlinked_session_consumed (st : Store) (chatId text fn S k : String) (mid : Nat)
    (hnolink : st.chat chatId = none)
    (hsess : st.active chatId = some ⟨S, k, mid⟩)
    (hk : k = "PM" ∨ k = "GUILD")
    (hcmd : startsWithL text "/" = false) :
    (handleUpdate st (.message chatId text fn)).2
        = [.sendMessage chatId UI.notLinked, .editMessageReplyMarkup chatId mid] ∧
    (∀ u, (handleUpdate st (.message chatId text fn)).1.pending u = st.pending u) ∧
    (handleUpdate st (.message chatId text fn)).1.active chatId = none ∧
    (handleUpdate st (.message chatId text fn)).1.permit chatId (toString mid) = none := by
  have hj : jsTruthyStr (Helpers.getUserId st chatId) = none := by
    simp [jsTruthyStr, Helpers.getUserId, hnolink]
  rcases hk with hk | hk <;> subst hk <;>
    refine ⟨?_, fun u => ?_, ?_, ?_⟩ <;>
      simp [handleUpdate, handleMessage, hcmd, hsess, Actions.sendReply,
        Actions.sendGuildMessage, hj, upd, upd2]

def c10st : Store :=
  { Store.empty with active := upd Store.empty.active "7" (some ⟨"Bob", "PM", 42⟩) }

theorem c10_witness :
    c10st.chat "7" = none ∧ c10st.active "7" = some ⟨"Bob", "PM", 42⟩ ∧
    ((handleUpdate c10st (.message "7" "hi" "Al")).2
        = [.sendMessage "7" UI.notLinked, .editMessageReplyMarkup "7" 42] ∧
      (∀ u, (handleUpdate c10st (.message "7" "hi" "Al")).1.pending u = c10st.pending u) ∧
      (handleUpdate c10st (.message "7" "hi" "Al")).1.active "7" = none ∧
      (handleUpdate c10st (.message "7" "hi" "Al")).1.permit "7" (toString 42) = none) :=
  ⟨rfl, by decide,
    c10_unlinked_session_consumed c10st "7" "hi" "Al" "Bob" "PM" 42 rfl (by decide)
      (Or.inl rfl) (by decide)⟩

/-- C9: every entry the webhook pushes onto a pending list is the JSON
    serialization of its payload and parses back exactly to that payload,
    with recipient and content for replies and content alone for guild
    messages; pushes append at the tail, keeping FIFO order, and every push
    refreshes the 24-hour expiry.  The polling-bot guild command pushes the
    Guild-recipient shape with the same properties. -/
theorem c9_queue_entry_roundtrip (st : Store) (userId chatId arg : String) (p : QueueEntry) :
    ((Helpers.queueReply st userId p).pending userId
        = st.pending userId ++ [stringifyEntry p]) ∧
    (Helpers.queueReply st userId p).pendingTtl userId = some 86400 ∧
    parseEntry (stringifyEntry p) = some p ∧
    (∀ uid, jsTruthyStr (st.chat chatId) = some uid →
      (TelegramBot.guildCommand st chatId arg).1.pending uid
          = st.pending uid ++ [stringifyEntry ⟨some "Guild", jsTrim arg⟩] ∧
      (TelegramBot.guildCommand st chatId arg).1.pendingTtl uid = some 86400) := by
  refine ⟨by simp [Helpers.queueReply, upd], by simp [Helpers.queueReply, upd],
    parseEntry_stringify p, fun uid h => ?_⟩
  constructor <;> simp [TelegramBot.guildCommand, h, upd]

def c9st : Store := { Store.empty with chat := upd Store.empty.chat "7" (some "p42") }

theorem c9_witness :
    jsTruthyStr (c9st.chat "7") = some "p42" ∧
    ((TelegramBot.guildCommand c9st "7" " hi there ").1.pending "p42"
        = c9st.pending "p42" ++ [stringifyEntry ⟨some "Guild", jsTrim " hi there "⟩] ∧
      (TelegramBot.guildCommand c9st "7" " hi there ").1.pendingTtl "p42" = some 86400) :=
  ⟨by decide,
    (c9_queue_entry_roundtrip c9st "p42" "7" " hi there " ⟨some "Bob", "x"⟩).2.2.2 "p42"
      (by decide)⟩

/-- C8: the stateful notification dispatcher resolves the destination with
    the explicit chat id of the request taking precedence over the
    account-id lookup, fails with the not-linked 404 outcome when neither
    resolves, fails with 400 when its required fields userId and text are
    missing, and returns the success body exactly when delivery succeeds;
    the stateless proxy variant likewise rejects a payload missing its
    required fields chatId and text with 400 and returns the success body
    exactly when delivery succeeds. -/
theorem c8_notify_resolution (st : Store) (req : NotifyReq) (ctx : String) (ok : Bool) :
    ((jsTruthyStr req.userId = none ∨ jsTruthyStr req.text = none) →
      notifyHandler st req ctx ok = (st, .badRequest, [])) ∧
    (∀ c u, jsTruthyStr req.chatId = some c → resolveChat st req.chatId u = some c) ∧
    (∀ u t, jsTruthyStr req.userId = some u → jsTruthyStr req.text = some t →
      (resolveChat st req.chatId u = none →
        notifyHandler st req ctx ok = (st, .notLinked, [])) ∧
      (∀ c, resolveChat st req.chatId u = some c → ok = true →
        (notifyHandler st req ctx ok).2.1 = .ok)) ∧
    ((jsTruthyStr req.chatId = none ∨ jsTruthyStr req.text = none) →
      (notifyStateless req ok).1 = .badRequest) ∧
    (∀ c t, jsTruthyStr req.chatId = some c → jsTruthyStr req.text = some t → ok = true →
      (notifyStateless req ok).1 = .ok) := by
  refine ⟨?_, ?_, ?_, ?_, ?_⟩
  · intro h
    cases hu : jsTruthyStr req.userId with
    | none => simp [notifyHandler, hu]
    | some u =>
      cases ht : jsTruthyStr req.text with
      | none => simp [notifyHandler, hu, ht]
      | some t =>
        rcases h with h | h
        · rw [hu] at h; cases h
        · rw [ht] at h; cases h
  · intro c u h; simp [resolveChat, h]
  · intro u t hu ht
    constructor
    · intro hres; simp [notifyHandler, hu, ht, hres]
    · intro c hres hok; subst hok; simp [notifyHandler, hu, ht, hres]
  · intro h
    cases hc : jsTruthyStr req.chatId with
    | none => simp [notifyStateless, hc]
    | some c =>
      cases ht : jsTruthyStr req.text with
      | none => simp [notifyStateless, hc, ht]
      | some t =>
        rcases h with h | h
        · rw [hc] at h; cases h
        · rw [ht] at h; cases h
  · intro c t hc ht hok; subst hok; simp [notifyStateless, hc, ht]

def c8st : Store := { Store.empty with user := upd Store.empty.user "p42" (some "7") }

theorem c8_witness :
    jsTruthyStr (NotifyReq.mk (some "p42") (some "hello") (some "99")).chatId = some "99" ∧
    resolveChat c8st (some "99") "p42" = some "99" ∧
    jsTruthyStr (NotifyReq.mk (some "p43") (some "hello") none).userId = some "p43" ∧
    jsTruthyStr (NotifyReq.mk (some "p43") (some "hello") none).text = some "hello" ∧
    resolveChat c8st none "p43" = none ∧
    notifyHandler c8st (NotifyReq.mk (some "p43") (some "hello") none) "1" true
      = (c8st, .notLinked, []) :=
  ⟨by decide, (c8_notify_resolution c8st ⟨some "p42", some "hello", some "99"⟩ "1" true).2.1
      "99" "p42" (by decide),
    by decide, by decide, by decide,
    ((c8_notify_resolution c8st ⟨some "p43", some "hello", none⟩ "1" true).2.2.1
      "p43" "hello" (by decide) (by decide)).1 (by decide)⟩

theorem upd_self {α : Type} (f : String → α) (k : String) (v : α) : upd f k v k = v := by
  simp [upd]

/-- Consistency is preserved by one fresh link or disconnect operation. -/
theorem linkedConsistent_applyOp (st : Store) (op : LinkOp)
    (hinv : linkedConsistent st) (hf : freshOp st op) :
    linkedConsistent (applyOp st op) := by
  cases op with
  | link c lid =>
    cases htok : st.token lid with
    | none =>
      have heq : applyOp st (.link c lid) = st := by
        simp [applyOp, Actions.linkAccount, htok]
      rw [heq]; exact hinv
    | some tv =>
      obtain ⟨hc, hu⟩ := hf tv htok
      intro x y
      have hchat : (applyOp st (.link c lid)).chat = upd st.chat c (some (tokenUserId tv)) := by
        simp [applyOp, Actions.linkAccount, htok]
      have huser : (applyOp st (.link c lid)).user = upd st.user (tokenUserId tv) (some c) := by
        simp [applyOp, Actions.linkAccount, htok]
      rw [hchat, huser]
      unfold upd
      by_cases hx : x = c
      · subst hx
        simp only [if_pos rfl]
        by_cases hy : y = tokenUserId tv
        · subst hy; simp
        · simp only [if_neg hy]
          constructor
          · intro hxy; exact absurd (Option.some.inj hxy).symm hy
          · intro hxy
            have h2 := (hinv x y).mpr hxy
            rw [hc] at h2; cases h2
      · simp only [if_neg hx]
        by_cases hy : y = tokenUserId tv
        · subst hy
          simp only [if_pos rfl]
          constructor
          · intro hxy
            have h2 := (hinv x (tokenUserId tv)).mp hxy
            rw [hu] at h2; cases h2
          · intro hxy; exact absurd (Option.some.inj hxy).symm hx
        · simp only [if_neg hy]
          exact hinv x y
  | disconnect c =>
    cases hj : jsTruthyStr (Helpers.getUserId st c) with
    | none =>
      have heq : applyOp st (.disconnect c) = st := by
        simp [applyOp, Actions.disconnectAccount, hj]
      rw [heq]; exact hinv
    | some u =>
      have hcu : st.chat c = some u := jsTruthyStr_eq_some hj
      intro x y
      have hchat : (applyOp st (.disconnect c)).chat = upd st.chat c none := by
        simp [applyOp, Actions.disconnectAccount, hj]
      have huser : (applyOp st (.disconnect c)).user = upd st.user u none := by
        simp [applyOp, Actions.disconnectAccount, hj]
      rw [hchat, huser]
      unfold upd
      by_cases hx : x = c
      · subst hx
        simp only [if_pos rfl]
        by_cases hy : y = u
        · subst hy; simp
        · simp only [if_neg hy]
          constructor
          · intro hxy; cases hxy
          · intro hxy
            have h2 := (hinv x y).mpr hxy
            rw [hcu] at h2
            exact absurd (Option.some.inj h2).symm hy
      · simp only [if_neg hx]
        by_cases hy : y = u
        · constructor
          · intro hxy
            rw [hy] at hxy
            have h2 := (hinv x u).mp hxy
            have h3 := (hinv c u).mp hcu
            rw [h2] at h3
            exact absurd (Option.some.inj h3) hx
          · intro hxy
            rw [if_pos hy] at hxy
            cases hxy
        · simp only [if_neg hy]
          exact hinv x y

/-- C3 (amended): the bidirectional consistency of the chat and account link
    directions is an invariant of every sequence of linkAccount and
    disconnectAccount operations in which each successful linkAccount
    targets a chat that currently has no link and an account that currently
    has no link; without that freshness proviso a re-link leaves a dangling
    reverse entry. -/
theorem c3_fresh_link_consistency (st : Store) (ops : List LinkOp)
    (hinv : linkedConsistent st) (hfresh : opsFresh st ops) :
    linkedConsistent (applyOps st ops) := by
  induction ops generalizing st with
  | nil => exact hinv
  | cons op ops ih =>
    obtain ⟨h1, h2⟩ := hfresh
    exact ih (applyOp st op) (linkedConsistent_applyOp st op hinv h1) h2

def c3stW : Store :=
  { Store.empty with token := upd Store.empty.token "t1" (some (.obj "u1" none)) }

theorem c3_fresh_link_consistency_witness :
    linkedConsistent c3stW ∧
    opsFresh c3stW [.link "chat1" "t1", .disconnect "chat1"] ∧
    linkedConsistent (applyOps c3stW [.link "chat1" "t1", .disconnect "chat1"]) := by
  have h1 : linkedConsistent c3stW := by
    intro c u; simp [c3stW, Store.empty]
  have h2 : opsFresh c3stW [LinkOp.link "chat1" "t1", LinkOp.disconnect "chat1"] := by
    refine ⟨?_, trivial, trivial⟩
    intro tv htv
    have htv2 : some (TokenVal.obj "u1" none) = some tv := htv
    obtain rfl := (Option.some.inj htv2).symm
    exact ⟨rfl, rfl⟩
  exact ⟨h1, h2, c3_fresh_link_consistency c3stW _ h1 h2⟩

def c3tokens : String → Option TokenVal :=
  upd (upd Store.empty.token "t1" (some (.obj "u1" none))) "t2" (some (.obj "u2" none))

def c3st0 : Store := { Store.empty with token := c3tokens }

/-- C3 counterexample: from a consistent store holding two link tokens,
    linking the same chat with the first and then the second token leaves
    the first reverse entry dangling: the account direction for u1 still
    points at chat1 while the chat direction points at u2, so the claimed
    invariant fails on a state reachable by linkAccount operations alone. -/
theorem c3_relink_breaks_consistency :
    linkedConsistent c3st0 ∧
    ¬ linkedConsistent (applyOps c3st0 [.link "chat1" "t1", .link "chat1" "t2"]) := by
  constructor
  · intro c u; simp [c3st0, Store.empty]
  · intro h
    have h1 : (applyOps c3st0 [LinkOp.link "chat1" "t1", LinkOp.link "chat1" "t2"]).user "u1"
        = some "chat1" := by decide
    have h2 := (h "chat1" "u1").mpr h1
    have h3 : (applyOps c3st0 [LinkOp.link "chat1" "t1", LinkOp.link "chat1" "t2"]).chat "chat1"
        = some "u2" := by decide
    rw [h2] at h3
    exact absurd (Option.some.inj h3) (by decide)

def c1st0 : Store := { Store.empty with
  chat := upd Store.empty.chat "7" (some "p42"),
  user := upd Store.empty.user "p42" (some "7"),
  permit := upd2 Store.empty.permit "7" "1700000000000" (some ⟨"Bob", "PM"⟩),
  permitTtl := upd2 Store.empty.permitTtl "7" "1700000000000" (some 300) }

def c1st1 : Store :=
  (handleUpdate c1st0 (.callback "q1" "7" 42 "reply_context:1700000000000")).1

def c1st2 : Store := (handleUpdate c1st1 (.message "7" "hello back" "Al")).1

/-- C1: evaluation of the code on the failing input.  A permit for context
    1700000000000 is activated from the button of message 42 and the
    resulting session is consumed by a free text, which routes the reply and
    clears the session; yet the permit of that context is still present,
    because the consumption deleted the key derived from the anchor message
    id 42 instead of the context id, and a second activation for the same
    context id succeeds, sending the type-your-reply prompt rather than the
    reply-window-expired message and creating a fresh active session. -/
theorem c1_consumed_permit_reactivates :
    c1st1.active "7" = some ⟨"Bob", "PM", 42⟩ ∧
    c1st2.active "7" = none ∧
    c1st2.pending "p42" = [stringifyEntry ⟨some "Bob", "hello back"⟩] ∧
    c1st2.permit "7" "1700000000000" = some ⟨"Bob", "PM"⟩ ∧
    (handleUpdate c1st2 (.callback "q2" "7" 43 "reply_context:1700000000000")).1.active "7"
        = some ⟨"Bob", "PM", 43⟩ ∧
    (handleUpdate c1st2 (.callback "q2" "7" 43 "reply_context:1700000000000")).2
      = [.answerCallbackQuery "q2",
         .sendMessage "7" ("📝 **Replying to Bob...**\n\nPlease type your message now.")] :=
  ⟨by decide, by decide, by decide, by decide, by decide, by decide⟩
